import Mathlib

/-!
# Composition root of the imago core server (`cmd/server/main.go`)

`main` is embedded as a function from the outcomes of its four fallible
start-up steps (a `World`) to the sequence of calls it performs (a trace of
`Event`s) and the way it ends (`Exit`).  Values handed between calls are terms:
the value returned by a constructor such as `NewAuthRepository(db)` is the term
`Value.authRepository db`, so a trace records exactly which instance was
passed to which call.

The auth and report usecases themselves live in packages of the repository
(`internal/auth/ucase`, `internal/report/usecase`) that `main` only imports;
their behaviour is modelled from the specification in the namespace `Core`.
-/

namespace Server

/-! ## Values -/

/-- Settings held by viper once a configuration file has been read. -/
abbrev Settings := List (String × String)

/-- Embeds `viper.GetString(key)`: the value stored under `key`, the empty
string when the key is absent. -/
def getString (cfg : Settings) (key : String) : String :=
  match cfg.lookup key with
  | some v => v
  | none => ""

/-- The three echo middlewares installed by `main` (lines 59-61). -/
inductive Middleware
  | Logger
  | Recover
  | CORS
  deriving DecidableEq, Repr

/-- Run-time values that `main` passes around.  Handles obtained from the
outside world carry a number identifying the instance; values returned by the
repository's own constructors are terms over their arguments. -/
inductive Value
  /-- zero value of an interface variable (`var authRepo auth.AuthRepository`) -/
  | nil
  /-- a Go string -/
  | str (s : String)
  /-- `context.Background()` -/
  | background
  /-- `option.WithCredentialsFile(file)` -/
  | withCredentialsFile (file : String)
  /-- `&firebase.Config{ProjectID: projectID}` -/
  | firebaseConfig (projectID : String)
  /-- the `*firebase.App` returned by `firebase.NewApp` -/
  | firebaseApp (h : Nat)
  /-- the `*auth.Client` returned by `firebaseApp.Auth` -/
  | authClient (h : Nat)
  /-- `postgres.Open(dsn)` -/
  | postgresOpen (dsn : String)
  /-- `&gorm.Config{}` -/
  | gormConfig
  /-- the `*gorm.DB` returned by `gorm.Open` -/
  | db (h : Nat)
  /-- the `*echo.Echo` returned by `echo.New()` -/
  | echo
  /-- `middleware.Logger()`, `middleware.Recover()`, `middleware.CORS()` -/
  | middleware (m : Middleware)
  /-- the `*echo.Group` returned by `e.Group(path)` -/
  | group (path : String)
  /-- value returned by `authPkgRepo.NewAuthRepository(a)` -/
  | authRepository (a : Value)
  /-- value returned by `authPkgUcase.NewAuthUseCase(a, b)` -/
  | authUseCase (a b : Value)
  /-- value returned by `authPkgInterop.NewAuthInterop(a)` -/
  | authInterop (a : Value)
  /-- value returned by `reportPkgRepo.NewReportRepository(a)` -/
  | reportRepository (a : Value)
  /-- value returned by `reportPkgUcase.NewReportUseCase(a, b)` -/
  | reportUseCase (a b : Value)
  /-- value returned by `reportPkgInterop.NewReportInterop(a)` -/
  | reportInterop (a : Value)
  deriving DecidableEq, Repr

/-- Functions and methods of other packages that `main` calls and that act on
the process (configuration, handles, router) or build a component.  Pure value
builders (`context.Background`, `option.WithCredentialsFile`, `postgres.Open`,
`middleware.*`, `fmt.Sprintf`, `fmt.Errorf`) appear as `Value`s or strings
instead. -/
inductive Func
  | SetConfigName
  | SetConfigType
  | AddConfigPath
  | ReadInConfig
  | GetString
  | NewApp
  | Auth
  | GormOpen
  | EchoNew
  | Use
  | NewAuthRepository
  | NewAuthUseCase
  | NewAuthInterop
  | NewReportRepository
  | NewReportUseCase
  | NewReportInterop
  | Group
  | NewAuthHttpDelivery
  | NewReportHttpDeliver
  | Start
  deriving DecidableEq, Repr

/-- One call performed by `main`: the function, the receiver when it is a
method call (`firebaseApp.Auth`, `e.Use`, `e.Group`, `e.Start`), and the
arguments in source order. -/
structure Event where
  fn : Func
  recv : Option Value
  args : List Value
  deriving DecidableEq, Repr

/-- A call of a package-level function. -/
def call (fn : Func) (args : List Value) : Event := ⟨fn, none, args⟩

/-- A method call on `recv`. -/
def method (recv : Value) (fn : Func) (args : List Value) : Event := ⟨fn, some recv, args⟩

/-- How `main` ends. -/
inductive Exit
  /-- `panic(err)` with the error's text -/
  | panicked (msg : String)
  /-- `log.Fatalf(...)` with the formatted message; the process exits -/
  | fatal (msg : String)
  /-- `main` ran to its last line: `e.Start` was called and came back -/
  | returned
  deriving DecidableEq, Repr

/-- What one execution of `main` did. -/
structure Run where
  trace : List Event
  exit : Exit
  deriving DecidableEq, Repr

/-- Outcomes of the four start-up steps that can fail; an error is represented
by its text (`err.Error()`). -/
structure World where
  /-- `viper.ReadInConfig()` for the given config name, type and search paths -/
  readInConfig : String → String → List String → Except String Settings
  /-- `firebase.NewApp(ctx, &firebase.Config{ProjectID: projectID}, option.WithCredentialsFile(file))` -/
  newApp : (projectID : String) → (file : String) → Except String Nat
  /-- `app.Auth(ctx)` on the app with the given handle -/
  auth : (app : Nat) → Except String Nat
  /-- `gorm.Open(postgres.Open(dsn), &gorm.Config{})` -/
  gormOpen : (dsn : String) → Except String Nat

/-! ## Constructors of the repository's packages

Their bodies are in other files; at the composition root only the returned
instance matters, represented by the term over the arguments. -/

/-- Returned instance of `authPkgRepo.NewAuthRepository(db)`. -/
def NewAuthRepository (db : Value) : Value := .authRepository db
/-- Returned instance of `authPkgUcase.NewAuthUseCase(repo, client)`. -/
def NewAuthUseCase (repo client : Value) : Value := .authUseCase repo client
/-- Returned instance of `authPkgInterop.NewAuthInterop(ucase)`. -/
def NewAuthInterop (ucase : Value) : Value := .authInterop ucase
/-- Returned instance of `reportPkgRepo.NewReportRepository(db)`. -/
def NewReportRepository (db : Value) : Value := .reportRepository db
/-- Returned instance of `reportPkgUcase.NewReportUseCase(repo, client)`. -/
def NewReportUseCase (repo client : Value) : Value := .reportUseCase repo client
/-- Returned instance of `reportPkgInterop.NewReportInterop(ucase)`. -/
def NewReportInterop (ucase : Value) : Value := .reportInterop ucase

/-! ## `main` -/

set_option linter.unusedVariables false in
/-- Embeds `func main()` of `cmd/server/main.go`, statement by statement.  The
trace `t` grows by one `Event` per call; assignments to the interface
variables declared on lines 64-70 are rendered as rebinding. -/
def main (w : World) : Run :=
  -- lines 29-32
  let t : List Event :=
    [ call .SetConfigName [.str "current"],
      call .SetConfigType [.str "yaml"],
      call .AddConfigPath [.str "."],
      call .ReadInConfig [] ]
  match w.readInConfig "current" "yaml" ["."] with
  | .error err =>
    -- lines 33-35
    ⟨t, .panicked ("fatal error config file: " ++ err)⟩
  | .ok cfg =>
  -- line 38
  let credential := getString cfg "firebase.credential"
  let t := t ++ [call .GetString [.str "firebase.credential"]]
  let opt := Value.withCredentialsFile credential
  -- lines 39-41
  let projectid := getString cfg "firebase.projectid"
  let t := t ++ [call .GetString [.str "firebase.projectid"]]
  let t := t ++ [call .NewApp [.background, .firebaseConfig projectid, opt]]
  match w.newApp projectid credential with
  | .error err =>
    -- lines 42-44
    ⟨t, .fatal ("error initializing app: " ++ err ++ "\n")⟩
  | .ok app =>
  let firebaseApp := Value.firebaseApp app
  -- line 46
  let t := t ++ [method firebaseApp .Auth [.background]]
  match w.auth app with
  | .error err =>
    -- lines 47-49
    ⟨t, .fatal ("error getting Auth client: " ++ err ++ "\n")⟩
  | .ok client =>
  let authClient := Value.authClient client
  -- line 52
  let dsn := getString cfg "database.dsn"
  let t := t ++ [call .GetString [.str "database.dsn"]]
  let t := t ++ [call .GormOpen [.postgresOpen dsn, .gormConfig]]
  match w.gormOpen dsn with
  | .error err =>
    -- lines 53-55
    ⟨t, .fatal ("error initializing database: " ++ err ++ "\n")⟩
  | .ok h =>
  let db := Value.db h
  -- lines 57-61
  let e := Value.echo
  let t := t ++ [call .EchoNew []]
  let t := t ++ [method e .Use [.middleware .Logger]]
  let t := t ++ [method e .Use [.middleware .Recover]]
  let t := t ++ [method e .Use [.middleware .CORS]]
  -- lines 64-70: interface variables start out nil
  let authRepo := Value.nil
  let authUsecase := Value.nil
  let authInterop := Value.nil
  let reportRepo := Value.nil
  let reportUsecase := Value.nil
  let reportInterop := Value.nil
  -- lines 72-74
  let t := t ++ [call .NewAuthRepository [db]]
  let authRepo := NewAuthRepository db
  let t := t ++ [call .NewAuthUseCase [authRepo, authClient]]
  let authUsecase := NewAuthUseCase authRepo authClient
  let t := t ++ [call .NewAuthInterop [authUsecase]]
  let authInterop := NewAuthInterop authUsecase
  -- lines 76-78
  let t := t ++ [call .NewReportRepository [db]]
  let reportRepo := NewReportRepository db
  let t := t ++ [call .NewReportUseCase [reportRepo, authClient]]
  let reportUsecase := NewReportUseCase reportRepo authClient
  let t := t ++ [call .NewReportInterop [reportUsecase]]
  let reportInterop := NewReportInterop reportUsecase
  -- lines 81-82
  let t := t ++ [method e .Group [.str "/v2/auth"]]
  let authApi := Value.group "/v2/auth"
  let t := t ++ [call .NewAuthHttpDelivery [authApi, authInterop]]
  -- lines 84-85
  let t := t ++ [method e .Group [.str "/v2/report"]]
  let reportApi := Value.group "/v2/report"
  let t := t ++ [call .NewReportHttpDeliver [reportApi, reportInterop]]
  -- line 88
  let host := getString cfg "server.host"
  let t := t ++ [call .GetString [.str "server.host"]]
  let port := getString cfg "server.port"
  let t := t ++ [call .GetString [.str "server.port"]]
  let t := t ++ [method e .Start [.str (host ++ ":" ++ port)]]
  ⟨t, .returned⟩

/-- Settings of a complete configuration file. -/
def okSettings : Settings :=
  [ ("firebase.credential", "cred.json"), ("firebase.projectid", "imago"),
    ("database.dsn", "host=db"), ("server.host", "0.0.0.0"), ("server.port", "8080") ]

/-- A world in which every start-up step succeeds. -/
def okWorld : World where
  readInConfig := fun _ _ _ => .ok okSettings
  newApp := fun _ _ => .ok 1
  auth := fun _ => .ok 2
  gormOpen := fun _ => .ok 3

/-- A world whose configuration file cannot be read. -/
def noConfigWorld : World where
  readInConfig := fun _ _ _ => .error "Config File \"current\" Not Found"
  newApp := fun _ _ => .ok 1
  auth := fun _ => .ok 2
  gormOpen := fun _ => .ok 3

/-- All four start-up steps succeed in `w`, yielding the settings `cfg`, the
firebase app `app`, the verifier client `client` and the database handle `h`.
The arguments of each step are the ones `main` passes. -/
def World.succeeds (w : World) (cfg : Settings) (app client h : Nat) : Prop :=
  w.readInConfig "current" "yaml" ["."] = .ok cfg ∧
  w.newApp (getString cfg "firebase.projectid") (getString cfg "firebase.credential") = .ok app ∧
  w.auth app = .ok client ∧
  w.gormOpen (getString cfg "database.dsn") = .ok h

end Server

/-! ## Usecases

`NewAuthUseCase` and `NewReportUseCase` are called by `main`, but the packages
`internal/auth/ucase` and `internal/report/usecase` that define them are not
among the sources.  The definitions of this section follow sections 3, 4 and 7
of the specification. -/

namespace Core

/-- Modelled from the spec: the closed error taxonomy of section 7
(`Unauthenticated`, `Forbidden`, `NotFound`, `Conflict`, `Internal`); the
domain packages that declare the errors are not among the sources. -/
inductive Failure
  | Unauthenticated
  | Forbidden
  | NotFound
  | Conflict
  | Internal
  deriving DecidableEq, Repr

/-- Modelled from the spec: the Identity record of section 3 (internal id,
external subject id, email metadata, creation timestamp); package
`domain/auth` is not among the sources. -/
structure Identity where
  id : Nat
  externalId : String
  email : String
  createdAt : Nat
  deriving DecidableEq, Repr

/-- Modelled from the spec: the verified claims of sections 4.1 and 6
(`subjectId`, `email`, `expiresAt`); the verifier is an external client. -/
structure Claims where
  subjectId : String
  email : String
  expiresAt : Nat
  deriving DecidableEq, Repr

/-- Modelled from the spec: the non-success results of the Identity Verifier
named in sections 4.1 and 4.3 (expired, malformed, revoked, missing
credential); the verifier is an external client. -/
inductive VerifyError
  | expired
  | malformed
  | revoked
  | missing
  deriving DecidableEq, Repr

/-- Modelled from the spec: the Identity Verifier contract of section 6,
`verify(token) -> claims | error`. -/
abbrev Verifier := String → Except VerifyError Claims

/-- Modelled from the spec: the Auth Repository operations of section 4.2 over
a store state `σ`; each call returns its result and the store after the call.
Package `internal/auth/repo` is not among the sources. -/
structure AuthRepository (σ : Type) where
  findByExternalId : σ → String → Except Failure Identity × σ
  create : σ → Identity → Except Failure Identity × σ
  update : σ → Identity → Except Failure Identity × σ

/-- Modelled from the spec: one call made to the Auth Repository, for the
record of reads and writes of Identities. -/
inductive RepoOp
  | findByExternalId (subjectId : String)
  | create (i : Identity)
  | update (i : Identity)
  deriving DecidableEq, Repr

/-- Modelled from the spec: what one run of the Auth Usecase produced: its
result, the store afterwards, and the repository calls it made, in order. -/
structure AuthOutcome (σ : Type) where
  result : Except Failure Identity
  store : σ
  ops : List RepoOp

/-- Modelled from the spec: the Auth Usecase state machine of section 4.3,
built from a repository and a verifier as `NewAuthUseCase(authRepo, authClient)`
is; package `internal/auth/ucase` is not among the sources.
Step 1 verifies the credential, any failure ending in `Unauthenticated`.
Step 2 looks the Identity up by external subject id and, when absent, creates
it, falling back to a re-read when the creation reports `Conflict`.
Step 3 returns the resolved Identity.  Storage failures surface as
`Internal`. -/
def AuthUseCase.resolve {σ : Type} (repo : AuthRepository σ) (verify : Verifier)
    (credential : String) (s : σ) : AuthOutcome σ :=
  match verify credential with
  | .error _ => ⟨.error .Unauthenticated, s, []⟩
  | .ok claims =>
    let find := RepoOp.findByExternalId claims.subjectId
    match repo.findByExternalId s claims.subjectId with
    | (.ok ident, s1) => ⟨.ok ident, s1, [find]⟩
    | (.error .NotFound, s1) =>
      let fresh : Identity := ⟨0, claims.subjectId, claims.email, 0⟩
      match repo.create s1 fresh with
      | (.ok ident, s2) => ⟨.ok ident, s2, [find, .create fresh]⟩
      | (.error .Conflict, s2) =>
        match repo.findByExternalId s2 claims.subjectId with
        | (.ok ident, s3) => ⟨.ok ident, s3, [find, .create fresh, find]⟩
        | (.error _, s3) => ⟨.error .Internal, s3, [find, .create fresh, find]⟩
      | (.error _, s2) => ⟨.error .Internal, s2, [find, .create fresh]⟩
    | (.error _, s1) => ⟨.error .Internal, s1, [find]⟩

/-- Modelled from the spec: an Auth Repository over a list of Identities, with
the uniqueness constraint on the external subject id of section 6 and
store-assigned ids. -/
def listAuthRepository : AuthRepository (List Identity) where
  findByExternalId := fun s sub =>
    match s.find? (fun i => i.externalId == sub) with
    | some i => (.ok i, s)
    | none => (.error .NotFound, s)
  create := fun s i =>
    if s.any (fun j => j.externalId == i.externalId) then (.error .Conflict, s)
    else
      let stored : Identity := ⟨s.length + 1, i.externalId, i.email, i.createdAt⟩
      (.ok stored, s ++ [stored])
  update := fun s i =>
    if s.any (fun j => j.id == i.id) then
      (.ok i, s.map (fun j => if j.id == i.id then i else j))
    else (.error .NotFound, s)

/-- A verifier that accepts one token and reports every other one expired. -/
def sampleVerifier : Verifier := fun token =>
  if token = "good" then .ok ⟨"sub-42", "a@b.c", 100⟩ else .error .expired

/-- Modelled from the spec: the status of a Report (section 3); only the
initial status is named by the specification. -/
inductive Status
  | initial
  | other (n : Nat)
  deriving DecidableEq, Repr

/-- Modelled from the spec: the Report record of section 3 (internal id, owner
identity id, content payload, status, timestamps); package `domain/Report` is
not among the sources. -/
structure Report where
  id : Nat
  ownerId : Nat
  content : String
  status : Status
  createdAt : Nat
  updatedAt : Nat
  deriving DecidableEq, Repr

/-- Modelled from the spec: the disclosure policy left open by sections 4.4,
4.5 and 9: a non-owner is answered `Forbidden` (existence disclosed) or
`NotFound` (existence hidden), one policy for all operations. -/
inductive Disclosure
  | forbidden
  | notFound
  deriving DecidableEq, Repr

/-- Modelled from the spec: the failure a non-owner receives under a policy. -/
def Disclosure.failure : Disclosure → Failure
  | .forbidden => .Forbidden
  | .notFound => .NotFound

/-- Modelled from the spec: `getById` of the Report Repository (section 4.4)
over a table of Reports keyed by internal id; `NotFound` when the id does
not exist.  Package `internal/report/repo` is not among the sources. -/
def ReportRepository.getById (table : List Report) (id : Nat) : Except Failure Report :=
  match table.find? (fun r => r.id == id) with
  | some r => .ok r
  | none => .error .NotFound

/-- Modelled from the spec: `getReport(identity, reportId)` of the Report
Usecase (section 4.5): fetch, then check `report.ownerId == identity.id`,
failing per the disclosure policy otherwise.  Package
`internal/report/usecase` is not among the sources. -/
def ReportUseCase.getReport (policy : Disclosure) (table : List Report) (identity : Identity)
    (reportId : Nat) : Except Failure Report :=
  match ReportRepository.getById table reportId with
  | .error f => .error f
  | .ok report =>
    if report.ownerId == identity.id then .ok report else .error policy.failure

end Core

namespace Server

/-! ## Vocabulary for the wiring claims -/

/-- The two domains. -/
inductive Domain
  | auth
  | report
  deriving DecidableEq, Repr

/-- Calls that build a component of a layer: repository, usecase, interop,
delivery. -/
def Func.isConstructor : Func → Bool
  | .NewAuthRepository | .NewAuthUseCase | .NewAuthInterop | .NewAuthHttpDelivery => true
  | .NewReportRepository | .NewReportUseCase | .NewReportInterop | .NewReportHttpDeliver => true
  | _ => false

/-- Calls that build a repository. -/
def Func.isRepository : Func → Bool
  | .NewAuthRepository | .NewReportRepository => true
  | _ => false

/-- Calls that build a usecase. -/
def Func.isUseCase : Func → Bool
  | .NewAuthUseCase | .NewReportUseCase => true
  | _ => false

/-- Calls that build an interop or a delivery. -/
def Func.isInteropOrDelivery : Func → Bool
  | .NewAuthInterop | .NewReportInterop | .NewAuthHttpDelivery | .NewReportHttpDeliver => true
  | _ => false

/-- Domain a constructor belongs to. -/
def Func.domain : Func → Option Domain
  | .NewAuthRepository | .NewAuthUseCase | .NewAuthInterop | .NewAuthHttpDelivery => some .auth
  | .NewReportRepository | .NewReportUseCase | .NewReportInterop | .NewReportHttpDeliver =>
    some .report
  | _ => none

/-- Domain a component instance belongs to; shared handles and plain values
belong to none. -/
def Value.domain : Value → Option Domain
  | .authRepository _ | .authUseCase _ _ | .authInterop _ => some .auth
  | .reportRepository _ | .reportUseCase _ _ | .reportInterop _ => some .report
  | _ => none

/-- Whether a value is an auth usecase instance or was (transitively)
constructed from one. -/
def Value.viaAuthUseCase : Value → Bool
  | .authUseCase _ _ => true
  | .authRepository a => viaAuthUseCase a
  | .authInterop a => viaAuthUseCase a
  | .reportRepository a => viaAuthUseCase a
  | .reportUseCase a b => viaAuthUseCase a || viaAuthUseCase b
  | .reportInterop a => viaAuthUseCase a
  | _ => false

/-- Whether a value is a store handle or a verifier client. -/
def Value.isStoreOrVerifier : Value → Bool
  | .db _ | .authClient _ => true
  | _ => false

/-- Calls by which viper's state is written: the three search settings and
the load itself. -/
def Func.isConfigWrite : Func → Bool
  | .SetConfigName | .SetConfigType | .AddConfigPath | .ReadInConfig => true
  | _ => false

/-- The constructor calls of a run, in order. -/
def Run.constructorCalls (r : Run) : List Event :=
  r.trace.filter (fun e => e.fn.isConstructor)

/-- The calls of `fn` in a run, in order. -/
def Run.callsOf (r : Run) (fn : Func) : List Event :=
  r.trace.filter (fun e => decide (e.fn = fn))

/-! ## What `main` does in each world -/

theorem okWorld_succeeds : okWorld.succeeds okSettings 1 2 3 :=
  ⟨rfl, rfl, rfl, rfl⟩

/-- The trace and exit of `main` when every start-up step succeeds. -/
theorem main_of_succeeds (w : World) (cfg : Settings) (app client h : Nat)
    (hs : w.succeeds cfg app client h) :
    main w =
      ⟨[ call .SetConfigName [.str "current"],
         call .SetConfigType [.str "yaml"],
         call .AddConfigPath [.str "."],
         call .ReadInConfig [],
         call .GetString [.str "firebase.credential"],
         call .GetString [.str "firebase.projectid"],
         call .NewApp [.background, .firebaseConfig (getString cfg "firebase.projectid"),
           .withCredentialsFile (getString cfg "firebase.credential")],
         method (.firebaseApp app) .Auth [.background],
         call .GetString [.str "database.dsn"],
         call .GormOpen [.postgresOpen (getString cfg "database.dsn"), .gormConfig],
         call .EchoNew [],
         method .echo .Use [.middleware .Logger],
         method .echo .Use [.middleware .Recover],
         method .echo .Use [.middleware .CORS],
         call .NewAuthRepository [.db h],
         call .NewAuthUseCase [.authRepository (.db h), .authClient client],
         call .NewAuthInterop [.authUseCase (.authRepository (.db h)) (.authClient client)],
         call .NewReportRepository [.db h],
         call .NewReportUseCase [.reportRepository (.db h), .authClient client],
         call .NewReportInterop [.reportUseCase (.reportRepository (.db h)) (.authClient client)],
         method .echo .Group [.str "/v2/auth"],
         call .NewAuthHttpDelivery [.group "/v2/auth",
           .authInterop (.authUseCase (.authRepository (.db h)) (.authClient client))],
         method .echo .Group [.str "/v2/report"],
         call .NewReportHttpDeliver [.group "/v2/report",
           .reportInterop (.reportUseCase (.reportRepository (.db h)) (.authClient client))],
         call .GetString [.str "server.host"],
         call .GetString [.str "server.port"],
         method .echo .Start
           [.str (getString cfg "server.host" ++ ":" ++ getString cfg "server.port")] ],
       .returned⟩ := by
  obtain ⟨h1, h2, h3, h4⟩ := hs
  simp only [main, h1, h2, h3, h4, NewAuthRepository, NewAuthUseCase, NewAuthInterop,
    NewReportRepository, NewReportUseCase, NewReportInterop, List.cons_append, List.nil_append]

/-- The run when the configuration file cannot be read (lines 33-35). -/
theorem main_of_config_error (w : World) (err : String)
    (h1 : w.readInConfig "current" "yaml" ["."] = .error err) :
    main w =
      ⟨[ call .SetConfigName [.str "current"],
         call .SetConfigType [.str "yaml"],
         call .AddConfigPath [.str "."],
         call .ReadInConfig [] ],
       .panicked ("fatal error config file: " ++ err)⟩ := by
  simp only [main, h1]

/-- The run when `firebase.NewApp` fails (lines 42-44). -/
theorem main_of_app_error (w : World) (cfg : Settings) (err : String)
    (h1 : w.readInConfig "current" "yaml" ["."] = .ok cfg)
    (h2 : w.newApp (getString cfg "firebase.projectid") (getString cfg "firebase.credential")
      = .error err) :
    main w =
      ⟨[ call .SetConfigName [.str "current"],
         call .SetConfigType [.str "yaml"],
         call .AddConfigPath [.str "."],
         call .ReadInConfig [],
         call .GetString [.str "firebase.credential"],
         call .GetString [.str "firebase.projectid"],
         call .NewApp [.background, .firebaseConfig (getString cfg "firebase.projectid"),
           .withCredentialsFile (getString cfg "firebase.credential")] ],
       .fatal ("error initializing app: " ++ err ++ "\n")⟩ := by
  simp only [main, h1, h2, List.cons_append, List.nil_append]

/-- The run when `firebaseApp.Auth` fails (lines 47-49). -/
theorem main_of_auth_error (w : World) (cfg : Settings) (app : Nat) (err : String)
    (h1 : w.readInConfig "current" "yaml" ["."] = .ok cfg)
    (h2 : w.newApp (getString cfg "firebase.projectid") (getString cfg "firebase.credential")
      = .ok app)
    (h3 : w.auth app = .error err) :
    main w =
      ⟨[ call .SetConfigName [.str "current"],
         call .SetConfigType [.str "yaml"],
         call .AddConfigPath [.str "."],
         call .ReadInConfig [],
         call .GetString [.str "firebase.credential"],
         call .GetString [.str "firebase.projectid"],
         call .NewApp [.background, .firebaseConfig (getString cfg "firebase.projectid"),
           .withCredentialsFile (getString cfg "firebase.credential")],
         method (.firebaseApp app) .Auth [.background] ],
       .fatal ("error getting Auth client: " ++ err ++ "\n")⟩ := by
  simp only [main, h1, h2, h3, List.cons_append, List.nil_append]

/-- The run when `gorm.Open` fails (lines 53-55). -/
theorem main_of_db_error (w : World) (cfg : Settings) (app client : Nat) (err : String)
    (h1 : w.readInConfig "current" "yaml" ["."] = .ok cfg)
    (h2 : w.newApp (getString cfg "firebase.projectid") (getString cfg "firebase.credential")
      = .ok app)
    (h3 : w.auth app = .ok client)
    (h4 : w.gormOpen (getString cfg "database.dsn") = .error err) :
    main w =
      ⟨[ call .SetConfigName [.str "current"],
         call .SetConfigType [.str "yaml"],
         call .AddConfigPath [.str "."],
         call .ReadInConfig [],
         call .GetString [.str "firebase.credential"],
         call .GetString [.str "firebase.projectid"],
         call .NewApp [.background, .firebaseConfig (getString cfg "firebase.projectid"),
           .withCredentialsFile (getString cfg "firebase.credential")],
         method (.firebaseApp app) .Auth [.background],
         call .GetString [.str "database.dsn"],
         call .GormOpen [.postgresOpen (getString cfg "database.dsn"), .gormConfig] ],
       .fatal ("error initializing database: " ++ err ++ "\n")⟩ := by
  simp only [main, h1, h2, h3, h4, List.cons_append, List.nil_append]

/-- Every world falls in exactly one of five cases: one of the four start-up
steps is the first to fail, or all succeed. -/
theorem world_cases (w : World) :
    (∃ err, w.readInConfig "current" "yaml" ["."] = .error err) ∨
    (∃ cfg err, w.readInConfig "current" "yaml" ["."] = .ok cfg ∧
      w.newApp (getString cfg "firebase.projectid") (getString cfg "firebase.credential")
        = .error err) ∨
    (∃ cfg app err, w.readInConfig "current" "yaml" ["."] = .ok cfg ∧
      w.newApp (getString cfg "firebase.projectid") (getString cfg "firebase.credential")
        = .ok app ∧ w.auth app = .error err) ∨
    (∃ cfg app client err, w.readInConfig "current" "yaml" ["."] = .ok cfg ∧
      w.newApp (getString cfg "firebase.projectid") (getString cfg "firebase.credential")
        = .ok app ∧ w.auth app = .ok client ∧
      w.gormOpen (getString cfg "database.dsn") = .error err) ∨
    (∃ cfg app client h, w.succeeds cfg app client h) := by
  cases h1 : w.readInConfig "current" "yaml" ["."] with
  | error err => exact Or.inl ⟨err, rfl⟩
  | ok cfg =>
    cases h2 : w.newApp (getString cfg "firebase.projectid")
        (getString cfg "firebase.credential") with
    | error err => exact Or.inr (Or.inl ⟨cfg, err, rfl, h2⟩)
    | ok app =>
      cases h3 : w.auth app with
      | error err => exact Or.inr (Or.inr (Or.inl ⟨cfg, app, err, rfl, h2, h3⟩))
      | ok client =>
        cases h4 : w.gormOpen (getString cfg "database.dsn") with
        | error err =>
          exact Or.inr (Or.inr (Or.inr (Or.inl ⟨cfg, app, client, err, rfl, h2, h3, h4⟩)))
        | ok h =>
          exact Or.inr (Or.inr (Or.inr (Or.inr ⟨cfg, app, client, h, h1, h2, h3, h4⟩)))

/-! ## Claims about the wiring -/

/-- C1: when start-up succeeds, the constructor calls of `main` are exactly the
two chains Repository -> Usecase -> Interop -> Delivery: each auth layer is
built from the instance the previous auth constructor returned, each report
layer from the instance the previous report constructor returned; no call
receives a nil value, and no constructor receives a component of the other
domain. -/
theorem C1_layered_composition (w : World) (cfg : Settings) (app client h : Nat)
    (hs : w.succeeds cfg app client h) :
    (main w).constructorCalls =
      [ call .NewAuthRepository [.db h],
        call .NewAuthUseCase [NewAuthRepository (.db h), .authClient client],
        call .NewAuthInterop [NewAuthUseCase (NewAuthRepository (.db h)) (.authClient client)],
        call .NewReportRepository [.db h],
        call .NewReportUseCase [NewReportRepository (.db h), .authClient client],
        call .NewReportInterop
          [NewReportUseCase (NewReportRepository (.db h)) (.authClient client)],
        call .NewAuthHttpDelivery [.group "/v2/auth",
          NewAuthInterop (NewAuthUseCase (NewAuthRepository (.db h)) (.authClient client))],
        call .NewReportHttpDeliver [.group "/v2/report",
          NewReportInterop
            (NewReportUseCase (NewReportRepository (.db h)) (.authClient client))] ] ∧
    (∀ e ∈ (main w).trace, ∀ a ∈ e.args, a ≠ Value.nil) ∧
    (∀ e ∈ (main w).trace, ∀ a ∈ e.args, ∀ d, a.domain = some d → e.fn.domain = some d) := by
  rw [main_of_succeeds w cfg app client h hs]
  refine ⟨?_, ?_, ?_⟩
  · simp [Run.constructorCalls, call, method, Func.isConstructor, NewAuthRepository,
      NewAuthUseCase, NewAuthInterop, NewReportRepository, NewReportUseCase, NewReportInterop]
  · simp [call, method]
  · simp [call, method, Value.domain, Func.domain]

/-- Witness for C1 in the world where every step succeeds. -/
theorem C1_layered_composition_witness :
    okWorld.succeeds okSettings 1 2 3 ∧
    (main okWorld).constructorCalls =
      [ call .NewAuthRepository [.db 3],
        call .NewAuthUseCase [NewAuthRepository (.db 3), .authClient 2],
        call .NewAuthInterop [NewAuthUseCase (NewAuthRepository (.db 3)) (.authClient 2)],
        call .NewReportRepository [.db 3],
        call .NewReportUseCase [NewReportRepository (.db 3), .authClient 2],
        call .NewReportInterop [NewReportUseCase (NewReportRepository (.db 3)) (.authClient 2)],
        call .NewAuthHttpDelivery [.group "/v2/auth",
          NewAuthInterop (NewAuthUseCase (NewAuthRepository (.db 3)) (.authClient 2))],
        call .NewReportHttpDeliver [.group "/v2/report",
          NewReportInterop (NewReportUseCase (NewReportRepository (.db 3)) (.authClient 2))] ] :=
  ⟨okWorld_succeeds, (C1_layered_composition okWorld okSettings 1 2 3 okWorld_succeeds).1⟩

/-- C2: when start-up succeeds, `NewAuthInterop` is called once, with the
instance returned by `NewAuthUseCase` as its only argument, and
`NewReportInterop` once, with the instance returned by `NewReportUseCase` as
its only argument; no interop or delivery constructor is passed the database
handle, the verifier client, or any store handle or verifier client at all. -/
theorem C2_interop_no_store_or_verifier (w : World) (cfg : Settings) (app client h : Nat)
    (hs : w.succeeds cfg app client h) :
    (main w).callsOf .NewAuthInterop =
      [call .NewAuthInterop [NewAuthUseCase (NewAuthRepository (.db h)) (.authClient client)]] ∧
    (main w).callsOf .NewReportInterop =
      [call .NewReportInterop
        [NewReportUseCase (NewReportRepository (.db h)) (.authClient client)]] ∧
    (∀ e ∈ (main w).trace, e.fn.isInteropOrDelivery = true →
      e.recv = none ∧
      ∀ a ∈ e.args, a ≠ Value.db h ∧ a ≠ Value.authClient client ∧
        a.isStoreOrVerifier = false) := by
  rw [main_of_succeeds w cfg app client h hs]
  refine ⟨?_, ?_, ?_⟩
  · simp [Run.callsOf, call, method, NewAuthRepository, NewAuthUseCase]
  · simp [Run.callsOf, call, method, NewReportRepository, NewReportUseCase]
  · simp [call, method, Func.isInteropOrDelivery, Value.isStoreOrVerifier]

/-- Witness for C2 in the world where every step succeeds. -/
theorem C2_interop_no_store_or_verifier_witness :
    okWorld.succeeds okSettings 1 2 3 ∧
    (main okWorld).callsOf .NewAuthInterop =
      [call .NewAuthInterop [NewAuthUseCase (NewAuthRepository (.db 3)) (.authClient 2)]] ∧
    (main okWorld).callsOf .NewReportInterop =
      [call .NewReportInterop [NewReportUseCase (NewReportRepository (.db 3)) (.authClient 2)]] :=
  ⟨okWorld_succeeds,
    (C2_interop_no_store_or_verifier okWorld okSettings 1 2 3 okWorld_succeeds).1,
    (C2_interop_no_store_or_verifier okWorld okSettings 1 2 3 okWorld_succeeds).2.1⟩

/-- C3: when start-up succeeds, `NewAuthRepository` and `NewReportRepository`
are each called once, with the database handle returned by `gorm.Open` as the
only argument; every repository constructor call in the run has exactly that
argument list, so none receives a usecase, an interop, the verifier client or
a repository. -/
theorem C3_repository_leaf (w : World) (cfg : Settings) (app client h : Nat)
    (hs : w.succeeds cfg app client h) :
    (main w).callsOf .NewAuthRepository = [call .NewAuthRepository [.db h]] ∧
    (main w).callsOf .NewReportRepository = [call .NewReportRepository [.db h]] ∧
    (∀ e ∈ (main w).trace, e.fn.isRepository = true → e.recv = none ∧ e.args = [Value.db h]) := by
  rw [main_of_succeeds w cfg app client h hs]
  refine ⟨?_, ?_, ?_⟩
  · simp [Run.callsOf, call, method]
  · simp [Run.callsOf, call, method]
  · simp [call, method, Func.isRepository]

/-- Witness for C3 in the world where every step succeeds. -/
theorem C3_repository_leaf_witness :
    okWorld.succeeds okSettings 1 2 3 ∧
    (main okWorld).callsOf .NewAuthRepository = [call .NewAuthRepository [.db 3]] ∧
    (main okWorld).callsOf .NewReportRepository = [call .NewReportRepository [.db 3]] :=
  ⟨okWorld_succeeds,
    (C3_repository_leaf okWorld okSettings 1 2 3 okWorld_succeeds).1,
    (C3_repository_leaf okWorld okSettings 1 2 3 okWorld_succeeds).2.1⟩

/-- C4: when start-up succeeds, the run contains exactly one `gorm.Open` call
and exactly one `firebaseApp.Auth` call; both repository constructors receive
the handle that `gorm.Open` returned and both usecase constructors receive the
client that `Auth` returned; every store handle or verifier client passed to
any call of the run is one of these two instances. -/
theorem C4_shared_store_and_verifier (w : World) (cfg : Settings) (app client h : Nat)
    (hs : w.succeeds cfg app client h) :
    (main w).callsOf .GormOpen =
      [call .GormOpen [.postgresOpen (getString cfg "database.dsn"), .gormConfig]] ∧
    (main w).callsOf .Auth = [method (.firebaseApp app) .Auth [.background]] ∧
    (∀ e ∈ (main w).trace, e.fn.isRepository = true → e.args = [Value.db h]) ∧
    (∀ e ∈ (main w).trace, e.fn.isUseCase = true →
      ∃ repo, e.args = [repo, Value.authClient client]) ∧
    (∀ e ∈ (main w).trace, ∀ a ∈ e.args, a.isStoreOrVerifier = true →
      a = Value.db h ∨ a = Value.authClient client) := by
  rw [main_of_succeeds w cfg app client h hs]
  refine ⟨?_, ?_, ?_, ?_, ?_⟩
  · simp [Run.callsOf, call, method]
  · simp [Run.callsOf, call, method]
  · simp [call, method, Func.isRepository]
  · simp [call, method, Func.isUseCase]
  · simp [call, method, Value.isStoreOrVerifier]

/-- Witness for C4 in the world where every step succeeds. -/
theorem C4_shared_store_and_verifier_witness :
    okWorld.succeeds okSettings 1 2 3 ∧
    (main okWorld).callsOf .GormOpen =
      [call .GormOpen [.postgresOpen (getString okSettings "database.dsn"), .gormConfig]] ∧
    (main okWorld).callsOf .Auth = [method (.firebaseApp 1) .Auth [.background]] :=
  ⟨okWorld_succeeds,
    (C4_shared_store_and_verifier okWorld okSettings 1 2 3 okWorld_succeeds).1,
    (C4_shared_store_and_verifier okWorld okSettings 1 2 3 okWorld_succeeds).2.1⟩

/-- C5, as stated, fails: in the world where every step succeeds, no
report-domain constructor receives the auth usecase or anything built from it,
while `NewReportUseCase` is called with the verifier client itself. -/
theorem C5_counterexample :
    ¬ (∃ e ∈ (main okWorld).trace, e.fn.domain = some Domain.report ∧
        ∃ a ∈ e.args, a.viaAuthUseCase = true) ∧
    call .NewReportUseCase [NewReportRepository (.db 3), .authClient 2] ∈ (main okWorld).trace := by
  rw [main_of_succeeds okWorld okSettings 1 2 3 okWorld_succeeds]
  refine ⟨?_, ?_⟩
  · simp [call, method, Func.domain, Value.viaAuthUseCase]
  · simp [call, method, NewReportRepository]

/-- C5, amended: when start-up succeeds, the report usecase is constructed once,
from the report repository instance and the verifier client directly, the same
client instance the auth usecase is constructed from; no report-domain
constructor receives the auth usecase or anything built from it. -/
theorem C5_report_usecase_wired_to_verifier (w : World) (cfg : Settings) (app client h : Nat)
    (hs : w.succeeds cfg app client h) :
    (main w).callsOf .NewReportUseCase =
      [call .NewReportUseCase [NewReportRepository (.db h), .authClient client]] ∧
    (main w).callsOf .NewAuthUseCase =
      [call .NewAuthUseCase [NewAuthRepository (.db h), .authClient client]] ∧
    (∀ e ∈ (main w).trace, e.fn.domain = some Domain.report →
      ∀ a ∈ e.args, a.viaAuthUseCase = false) := by
  rw [main_of_succeeds w cfg app client h hs]
  refine ⟨?_, ?_, ?_⟩
  · simp [Run.callsOf, call, method, NewReportRepository]
  · simp [Run.callsOf, call, method, NewAuthRepository]
  · simp [call, method, Func.domain, Value.viaAuthUseCase]

/-- Witness for the amended C5 in the world where every step succeeds. -/
theorem C5_report_usecase_wired_to_verifier_witness :
    okWorld.succeeds okSettings 1 2 3 ∧
    (main okWorld).callsOf .NewReportUseCase =
      [call .NewReportUseCase [NewReportRepository (.db 3), .authClient 2]] :=
  ⟨okWorld_succeeds,
    (C5_report_usecase_wired_to_verifier okWorld okSettings 1 2 3 okWorld_succeeds).1⟩

/-- C8: in every world `main` calls `viper.ReadInConfig` exactly once; no
configuration value is read before that call and nothing writes viper's state
after it; the only keys ever read are `firebase.credential`,
`firebase.projectid`, `database.dsn`, `server.host` and `server.port`, and when
start-up succeeds each of them is read once, in that order. -/
theorem C8_config_loaded_once (w : World) :
    (main w).callsOf .ReadInConfig = [call .ReadInConfig []] ∧
    (∃ pre post, (main w).trace = pre ++ call .ReadInConfig [] :: post ∧
      (∀ e ∈ pre, e.fn ≠ Func.GetString) ∧
      (∀ e ∈ post, e.fn.isConfigWrite = false)) ∧
    (∀ e ∈ (main w).trace, e.fn = Func.GetString →
      e ∈ [ call .GetString [.str "firebase.credential"],
            call .GetString [.str "firebase.projectid"],
            call .GetString [.str "database.dsn"],
            call .GetString [.str "server.host"],
            call .GetString [.str "server.port"] ]) ∧
    (∀ cfg app client h, w.succeeds cfg app client h →
      (main w).callsOf .GetString =
        [ call .GetString [.str "firebase.credential"],
          call .GetString [.str "firebase.projectid"],
          call .GetString [.str "database.dsn"],
          call .GetString [.str "server.host"],
          call .GetString [.str "server.port"] ]) := by
  rcases world_cases w with ⟨err, h1⟩ | ⟨cfg, err, h1, h2⟩ | ⟨cfg, app, err, h1, h2, h3⟩ |
    ⟨cfg, app, client, err, h1, h2, h3, h4⟩ | ⟨cfg, app, client, h, hs⟩
  · rw [main_of_config_error w err h1]
    refine ⟨by simp [Run.callsOf, call, method], ⟨[call .SetConfigName [.str "current"],
      call .SetConfigType [.str "yaml"], call .AddConfigPath [.str "."]], _, rfl, ?_, ?_⟩,
      ?_, ?_⟩
    · simp [call]
    · simp
    · simp [call]
    · rintro cfg1 app1 client1 hh ⟨g1, -⟩
      rw [h1] at g1
      cases g1
  · rw [main_of_app_error w cfg err h1 h2]
    refine ⟨by simp [Run.callsOf, call, method], ⟨[call .SetConfigName [.str "current"],
      call .SetConfigType [.str "yaml"], call .AddConfigPath [.str "."]], _, rfl, ?_, ?_⟩,
      ?_, ?_⟩
    · simp [call]
    · simp [call, Func.isConfigWrite]
    · simp [call]
    · rintro cfg1 app1 client1 hh ⟨g1, g2, -⟩
      rw [h1] at g1
      cases g1
      rw [h2] at g2
      cases g2
  · rw [main_of_auth_error w cfg app err h1 h2 h3]
    refine ⟨by simp [Run.callsOf, call, method], ⟨[call .SetConfigName [.str "current"],
      call .SetConfigType [.str "yaml"], call .AddConfigPath [.str "."]], _, rfl, ?_, ?_⟩,
      ?_, ?_⟩
    · simp [call]
    · simp [call, method, Func.isConfigWrite]
    · simp [call, method]
    · rintro cfg1 app1 client1 hh ⟨g1, g2, g3, -⟩
      rw [h1] at g1
      cases g1
      rw [h2] at g2
      cases g2
      rw [h3] at g3
      cases g3
  · rw [main_of_db_error w cfg app client err h1 h2 h3 h4]
    refine ⟨by simp [Run.callsOf, call, method], ⟨[call .SetConfigName [.str "current"],
      call .SetConfigType [.str "yaml"], call .AddConfigPath [.str "."]], _, rfl, ?_, ?_⟩,
      ?_, ?_⟩
    · simp [call]
    · simp [call, method, Func.isConfigWrite]
    · simp [call, method]
    · rintro cfg1 app1 client1 hh ⟨g1, g2, g3, g4⟩
      rw [h1] at g1
      cases g1
      rw [h2] at g2
      cases g2
      rw [h3] at g3
      cases g3
      rw [h4] at g4
      cases g4
  · rw [main_of_succeeds w cfg app client h hs]
    refine ⟨by simp [Run.callsOf, call, method], ⟨[call .SetConfigName [.str "current"],
      call .SetConfigType [.str "yaml"], call .AddConfigPath [.str "."]], _, rfl, ?_, ?_⟩,
      ?_, ?_⟩
    · simp [call]
    · simp [call, method, Func.isConfigWrite]
    · simp [call, method]
    · intro _ _ _ _ _
      simp [Run.callsOf, call, method]

/-- Witness for C8: the five reads of the world where every step succeeds. -/
theorem C8_config_loaded_once_witness :
    okWorld.succeeds okSettings 1 2 3 ∧
    (main okWorld).callsOf .GetString =
      [ call .GetString [.str "firebase.credential"],
        call .GetString [.str "firebase.projectid"],
        call .GetString [.str "database.dsn"],
        call .GetString [.str "server.host"],
        call .GetString [.str "server.port"] ] :=
  ⟨okWorld_succeeds, (C8_config_loaded_once okWorld).2.2.2 okSettings 1 2 3 okWorld_succeeds⟩

/-- C9: start-up is fail-fast.  If reading the configuration fails, `main`
panics with "fatal error config file: " followed by the error; if creating
the Firebase app, obtaining the auth client or opening the database fails,
`main` ends through `log.Fatalf` with the corresponding message.  In each of
the four cases the run contains no constructor call, no route group and no
`Start`.  A `Start` call occurs exactly when all four steps succeed. -/
theorem C9_fail_fast (w : World) :
    (∀ err, w.readInConfig "current" "yaml" ["."] = .error err →
      (main w).exit = .panicked ("fatal error config file: " ++ err) ∧
      ∀ e ∈ (main w).trace,
        e.fn.isConstructor = false ∧ e.fn ≠ Func.Group ∧ e.fn ≠ Func.Start) ∧
    (∀ cfg err, w.readInConfig "current" "yaml" ["."] = .ok cfg →
      w.newApp (getString cfg "firebase.projectid") (getString cfg "firebase.credential")
        = .error err →
      (main w).exit = .fatal ("error initializing app: " ++ err ++ "\n") ∧
      ∀ e ∈ (main w).trace,
        e.fn.isConstructor = false ∧ e.fn ≠ Func.Group ∧ e.fn ≠ Func.Start) ∧
    (∀ cfg app err, w.readInConfig "current" "yaml" ["."] = .ok cfg →
      w.newApp (getString cfg "firebase.projectid") (getString cfg "firebase.credential")
        = .ok app →
      w.auth app = .error err →
      (main w).exit = .fatal ("error getting Auth client: " ++ err ++ "\n") ∧
      ∀ e ∈ (main w).trace,
        e.fn.isConstructor = false ∧ e.fn ≠ Func.Group ∧ e.fn ≠ Func.Start) ∧
    (∀ cfg app client err, w.readInConfig "current" "yaml" ["."] = .ok cfg →
      w.newApp (getString cfg "firebase.projectid") (getString cfg "firebase.credential")
        = .ok app →
      w.auth app = .ok client →
      w.gormOpen (getString cfg "database.dsn") = .error err →
      (main w).exit = .fatal ("error initializing database: " ++ err ++ "\n") ∧
      ∀ e ∈ (main w).trace,
        e.fn.isConstructor = false ∧ e.fn ≠ Func.Group ∧ e.fn ≠ Func.Start) ∧
    ((∃ e ∈ (main w).trace, e.fn = Func.Start) ↔
      ∃ cfg app client h, w.succeeds cfg app client h) := by
  refine ⟨?_, ?_, ?_, ?_, ?_⟩
  · intro err h1
    rw [main_of_config_error w err h1]
    simp [call, Func.isConstructor]
  · intro cfg err h1 h2
    rw [main_of_app_error w cfg err h1 h2]
    simp [call, Func.isConstructor]
  · intro cfg app err h1 h2 h3
    rw [main_of_auth_error w cfg app err h1 h2 h3]
    simp [call, method, Func.isConstructor]
  · intro cfg app client err h1 h2 h3 h4
    rw [main_of_db_error w cfg app client err h1 h2 h3 h4]
    simp [call, method, Func.isConstructor]
  · constructor
    · intro hstart
      rcases world_cases w with ⟨err, h1⟩ | ⟨cfg, err, h1, h2⟩ | ⟨cfg, app, err, h1, h2, h3⟩ |
        ⟨cfg, app, client, err, h1, h2, h3, h4⟩ | hs
      · rw [main_of_config_error w err h1] at hstart
        simp [call] at hstart
      · rw [main_of_app_error w cfg err h1 h2] at hstart
        simp [call] at hstart
      · rw [main_of_auth_error w cfg app err h1 h2 h3] at hstart
        simp [call, method] at hstart
      · rw [main_of_db_error w cfg app client err h1 h2 h3 h4] at hstart
        simp [call, method] at hstart
      · exact hs
    · rintro ⟨cfg, app, client, h, hs⟩
      rw [main_of_succeeds w cfg app client h hs]
      simp [call, method]

/-- Witness for C9: a world whose configuration file is missing. -/
theorem C9_fail_fast_witness :
    noConfigWorld.readInConfig "current" "yaml" ["."]
      = .error "Config File \"current\" Not Found" ∧
    (main noConfigWorld).exit
      = .panicked ("fatal error config file: " ++ "Config File \"current\" Not Found") :=
  ⟨rfl, ((C9_fail_fast noConfigWorld).1 "Config File \"current\" Not Found" rfl).1⟩

/-- C10: when start-up succeeds, the route and serve calls of the run are, in
this order: the group "/v2/auth", the auth delivery on that group with the
auth interop, the group "/v2/report", the report delivery on that group with
the report interop, and `Start` on "<server.host>:<server.port>"; `Start` is
the last call of the run, and the two groups are distinct. -/
theorem C10_route_binding (w : World) (cfg : Settings) (app client h : Nat)
    (hs : w.succeeds cfg app client h) :
    (main w).trace.filter (fun e => decide (e.fn ∈
        [Func.Group, Func.NewAuthHttpDelivery, Func.NewReportHttpDeliver, Func.Start])) =
      [ method .echo .Group [.str "/v2/auth"],
        call .NewAuthHttpDelivery [.group "/v2/auth",
          NewAuthInterop (NewAuthUseCase (NewAuthRepository (.db h)) (.authClient client))],
        method .echo .Group [.str "/v2/report"],
        call .NewReportHttpDeliver [.group "/v2/report",
          NewReportInterop
            (NewReportUseCase (NewReportRepository (.db h)) (.authClient client))],
        method .echo .Start
          [.str (getString cfg "server.host" ++ ":" ++ getString cfg "server.port")] ] ∧
    (main w).trace.getLast? = some (method .echo .Start
      [.str (getString cfg "server.host" ++ ":" ++ getString cfg "server.port")]) ∧
    Value.group "/v2/auth" ≠ Value.group "/v2/report" ∧
    (main w).exit = .returned := by
  rw [main_of_succeeds w cfg app client h hs]
  refine ⟨?_, ?_, ?_, ?_⟩
  · simp [call, method, NewAuthRepository, NewAuthUseCase, NewAuthInterop,
      NewReportRepository, NewReportUseCase, NewReportInterop]
  · simp [call, method]
  · simp
  · rfl

/-- Witness for C10 in the world where every step succeeds. -/
theorem C10_route_binding_witness :
    okWorld.succeeds okSettings 1 2 3 ∧
    (main okWorld).trace.getLast? = some (method .echo .Start
      [.str (getString okSettings "server.host" ++ ":" ++ getString okSettings "server.port")]) ∧
    (main okWorld).exit = .returned :=
  ⟨okWorld_succeeds,
    (C10_route_binding okWorld okSettings 1 2 3 okWorld_succeeds).2.1,
    (C10_route_binding okWorld okSettings 1 2 3 okWorld_succeeds).2.2.2⟩

end Server

namespace Core

/-! ## Claims about the usecases -/

/-- The report stored under an id of a table with unique ids is the one
`getById` returns. -/
theorem getById_of_mem (table : List Report) (r : Report)
    (hkey : (table.map (fun x => x.id)).Nodup) (hr : r ∈ table) :
    ReportRepository.getById table r.id = .ok r := by
  have hfind : table.find? (fun x => x.id == r.id) = some r := by
    induction table with
    | nil => cases hr
    | cons x xs ih =>
      rw [List.map_cons, List.nodup_cons] at hkey
      rcases List.mem_cons.mp hr with rfl | hmem
      · simp
      · have hne : x.id ≠ r.id := by
          intro heq
          exact hkey.1 (heq ▸ List.mem_map_of_mem (fun x => x.id) hmem)
        rw [List.find?_cons_of_neg _ (by simpa using hne)]
        exact ih hkey.2 hmem
  simp [ReportRepository.getById, hfind]

/-- C6: whenever the verifier returns a non-success result for a credential,
whichever it is, the Auth Usecase returns `Unauthenticated`, leaves the store
as it was and makes no call to the auth repository. -/
theorem C6_unverified_is_unauthenticated {σ : Type} (repo : AuthRepository σ)
    (verify : Verifier) (credential : String) (s : σ) (e : VerifyError)
    (hfail : verify credential = .error e) :
    (AuthUseCase.resolve repo verify credential s).result = .error Failure.Unauthenticated ∧
    (AuthUseCase.resolve repo verify credential s).ops = [] ∧
    (AuthUseCase.resolve repo verify credential s).store = s := by
  simp [AuthUseCase.resolve, hfail]

/-- Witness for C6: an expired token against a store holding one Identity. -/
theorem C6_unverified_is_unauthenticated_witness :
    sampleVerifier "stale" = .error VerifyError.expired ∧
    (AuthUseCase.resolve listAuthRepository sampleVerifier "stale"
      [⟨1, "sub-42", "a@b.c", 0⟩]).ops = [] :=
  ⟨by simp [sampleVerifier],
    (C6_unverified_is_unauthenticated listAuthRepository sampleVerifier "stale"
      [⟨1, "sub-42", "a@b.c", 0⟩] VerifyError.expired (by simp [sampleVerifier])).2.1⟩

/-- C7: for a table with unique ids, a stored Report `r` and an identity `i`
that is not its owner, `getReport(i, r.id)` fails with the failure of the
disclosure policy, `Forbidden` or `NotFound`, and so never returns `Ok`. -/
theorem C7_non_owner_never_ok (policy : Disclosure) (table : List Report) (i : Identity)
    (r : Report) (hkey : (table.map (fun x => x.id)).Nodup) (hr : r ∈ table)
    (hown : r.ownerId ≠ i.id) :
    ReportUseCase.getReport policy table i r.id = .error policy.failure ∧
    (∀ rep, ReportUseCase.getReport policy table i r.id ≠ .ok rep) ∧
    (policy.failure = Failure.Forbidden ∨ policy.failure = Failure.NotFound) := by
  have hres : ReportUseCase.getReport policy table i r.id = .error policy.failure := by
    simp [ReportUseCase.getReport, getById_of_mem table r hkey hr, hown]
  refine ⟨hres, ?_, ?_⟩
  · intro rep h
    rw [hres] at h
    cases h
  · cases policy
    · exact Or.inl rfl
    · exact Or.inr rfl

/-- Witness for C7: identity 2 asks for the report that identity 1 owns. -/
theorem C7_non_owner_never_ok_witness :
    (([⟨7, 1, "draft", .initial, 0, 0⟩] : List Report).map (fun x => x.id)).Nodup ∧
    (⟨7, 1, "draft", .initial, 0, 0⟩ : Report) ∈ ([⟨7, 1, "draft", .initial, 0, 0⟩] : List Report) ∧
    (1 : Nat) ≠ 2 ∧
    ReportUseCase.getReport .forbidden [⟨7, 1, "draft", .initial, 0, 0⟩] ⟨2, "sub-2", "", 0⟩ 7
      = .error Failure.Forbidden :=
  ⟨by simp, by simp, by decide,
    (C7_non_owner_never_ok .forbidden [⟨7, 1, "draft", .initial, 0, 0⟩] ⟨2, "sub-2", "", 0⟩
      ⟨7, 1, "draft", .initial, 0, 0⟩ (by simp) (by simp) (by decide)).1⟩

end Core
